import Mathlib

/-!
Shallow embedding of the Squeezebox YIO integration (src/src/squeezebox.cpp,
src/src/squeezebox.h): the connection/subscription state machine, the player
registry and status synchronizer, the progress-extrapolation tick, and the
command dispatcher.  Qt maps (`QMap`) are modelled as association lists with
insert-or-default semantics matching `operator[]` and `QMap::value`; `double`
positions are modelled as rationals; the global `qrand()` stream is modelled
as a per-state supply function `Nat → Int` with a cursor index.
-/

namespace Sq

/-- The `connectionStates` enum of `Squeezebox` (the .cpp revision also
assigns an `error` state in `socketError`). -/
inductive connectionStates
  | idle
  | playerInfo
  | cometdHandshake
  | cometdConnect
  | cometdSubscribe
  | connected
  | error
deriving DecidableEq, Repr

/-- The integration-level state reported through `setState` (from the host
`Integration` base class): `CONNECTING`, `CONNECTED`, `DISCONNECTED`. -/
inductive IntegState
  | CONNECTING
  | CONNECTED
  | DISCONNECTED
deriving DecidableEq, Repr

/-- `Squeezebox::SqPlayer` (squeezebox.h lines 76-83). -/
structure SqPlayer where
  connected : Bool := false
  subscribed : Bool := false
  isPlaying : Bool := false
  position : ℚ := 0
deriving DecidableEq, Repr

/-- The media-player state values set through `EntityInterface::setState`. -/
inductive MediaState
  | OFF
  | ON
  | PLAYING
  | IDLE
deriving DecidableEq, Repr

/-- The entity-facing projection written through the host entity interface
(`setState` / `updateAttrByIndex`). -/
structure Entity where
  state : MediaState := MediaState.OFF
  mediaArtist : String := ""
  mediaTitle : String := ""
  mediaImage : String := ""
  muted : Bool := false
  volume : Int := 0
  mediaDuration : Int := 0
  mediaProgress : ℚ := 0
deriving DecidableEq, Repr

/-- One entry of the `playlist_loop` array of a status payload. -/
structure PlaylistItem where
  artist : String := ""
  title : String := ""
  coverart : Bool := false
  coverid : String := ""
deriving DecidableEq, Repr

/-- The fields of a status payload read by `parsePlayerStatus`.  A missing
JSON field reads as the QVariant default (false / "" / 0), which is the
default value here.  `playlist_curr_index` is modelled as a `Nat` and the
playlist access totalised with a default item (`QList::at` out of range is
undefined behaviour in the source). -/
structure StatusPayload where
  power : Bool := false
  mode : String := ""
  playlist_loop : List PlaylistItem := []
  playlist_curr_index : Nat := 0
  mixer_volume : Int := 0
  duration : Int := 0
  time : ℚ := 0
deriving DecidableEq, Repr

/-- One CometD message object as consumed by `socketReceived` (the fields it
reads: `successful`, `channel`, `clientId`, `id`, `data`). -/
structure CometdFrame where
  successful : Bool := false
  channel : String := ""
  clientId : String := ""
  id : Int := 0
  data : StatusPayload := {}
deriving DecidableEq, Repr

/-- Association-list read with default, modelling `QMap::value` (and reads
through `operator[]` after the entry exists). -/
def alistGetD {α β : Type} [BEq α] (m : List (α × β)) (k : α) (d : β) : β :=
  match m with
  | [] => d
  | p :: rest => if p.1 == k then p.2 else alistGetD rest k d

/-- Association-list update, modelling `QMap::operator[]` mutation: if the
key is absent a default-constructed value is inserted first, then the
mutation `f` is applied. -/
def alistSet {α β : Type} [BEq α] (m : List (α × β)) (k : α) (d : β) (f : β → β) :
    List (α × β) :=
  match m with
  | [] => [(k, f d)]
  | p :: rest => if p.1 == k then (p.1, f p.2) :: rest else p :: alistSet rest k d f

/-- `QMap::contains`. -/
def alistContains {α β : Type} [BEq α] (m : List (α × β)) (k : α) : Bool :=
  m.any (fun p => p.1 == k)

/-- The in-memory state of one `Squeezebox` integration instance. -/
structure SqState where
  _connectionState : connectionStates := connectionStates.idle
  integrationState : IntegState := IntegState.DISCONNECTED
  _httpurl : String := ""
  _clientId : String := ""
  _playerCnt : Nat := 0
  _subscriptionChannel : String := ""
  _sqPlayerDatabase : List (String × SqPlayer) := []
  _sqPlayerIdMapping : List (Int × String) := []
  entities : List (String × Entity) := []
  _inStandby : Bool := false
  _userDisconnect : Bool := false
  _mediaProgressActive : Bool := false
  _connectionTimeoutActive : Bool := false
  _connectionTries : Nat := 0
  _randSupply : Nat → Int := fun _ => 0
  _randIdx : Nat := 0
  _socketOpen : Bool := false

/-- The entity update computed by `parsePlayerStatus` (squeezebox.cpp lines
317-362): playback state from `power`/`mode`, track metadata from the current
playlist item, the negative-volume-means-muted convention, duration, and the
authoritative elapsed time. -/
def computeEntity (httpurl : String) (e : Entity) (d : StatusPayload) : Entity :=
  let item := d.playlist_loop.getD d.playlist_curr_index {}
  { state :=
      if d.power = false then MediaState.OFF
      else if d.mode = "play" then MediaState.PLAYING
      else if d.mode = "pause" ∨ d.mode = "stop" then MediaState.IDLE
      else MediaState.ON
    mediaArtist := item.artist
    mediaTitle := item.title
    mediaImage :=
      if item.coverart then httpurl ++ "music/" ++ item.coverid ++ "/cover.jpg" else ""
    muted := if d.mixer_volume < 0 then true else false
    volume := if d.mixer_volume < 0 then e.volume else d.mixer_volume
    mediaDuration := d.duration
    mediaProgress := d.time }

/-- The registry-entry update computed by `parsePlayerStatus`: `isPlaying`
follows `power`/`mode` (untouched for an unrecognised mode or power off),
`position` is overwritten by the payload's `time`. -/
def computePlayer (p : SqPlayer) (d : StatusPayload) : SqPlayer :=
  { p with
    isPlaying :=
      if d.power = true ∧ d.mode = "play" then true
      else if d.power = true ∧ (d.mode = "pause" ∨ d.mode = "stop") then false
      else p.isPlaying
    position := d.time }

/-- `Squeezebox::parsePlayerStatus` (squeezebox.cpp lines 317-362), acting on
the entity map, the player registry, and the media-progress timer (started
when the mode is `play` and the session is not in standby). -/
def parsePlayerStatus (st : SqState) (playerMac : String) (d : StatusPayload) : SqState :=
  { st with
    entities := alistSet st.entities playerMac {} (fun e => computeEntity st._httpurl e d)
    _sqPlayerDatabase :=
      alistSet st._sqPlayerDatabase playerMac {} (fun p => computePlayer p d)
    _mediaProgressActive :=
      if d.power = true ∧ d.mode = "play" ∧ st._inStandby = false then true
      else st._mediaProgressActive }

/-- One tick applied to one registry entry: a playing player's position
advances by the 500 ms tick interval (0.5 s). -/
def tickPlayer (p : SqPlayer) : SqPlayer :=
  if p.isPlaying then { p with position := p.position + 1 / 2 } else p

/-- `Squeezebox::onMediaProgressTimer` (squeezebox.cpp lines 364-378):
advance every playing player by 0.5 s, publish the value to the entity, and
stop the timer if no player is playing. -/
def onMediaProgressTimer (st : SqState) : SqState :=
  let db := st._sqPlayerDatabase.map (fun e => (e.1, tickPlayer e.2))
  let ents := st._sqPlayerDatabase.foldl
    (fun acc e =>
      if e.2.isPlaying then
        alistSet acc e.1 {} (fun en => { en with mediaProgress := e.2.position + 1 / 2 })
      else acc)
    st.entities
  let onePlaying := st._sqPlayerDatabase.any (fun e => e.2.isPlaying)
  { st with
    _sqPlayerDatabase := db
    entities := ents
    _mediaProgressActive := if onePlaying then st._mediaProgressActive else false }

/-- `Squeezebox::disconnect` (squeezebox.cpp lines 112-119): set the
user-disconnect flag, close the socket, stop the media-progress timer, and
report `DISCONNECTED`.  Nothing else is touched. -/
def disconnectFn (st : SqState) : SqState :=
  { st with
    _userDisconnect := true
    _socketOpen := false
    _mediaProgressActive := false
    integrationState := IntegState.DISCONNECTED }

/-- `Squeezebox::connect` (squeezebox.cpp lines 102-110) together with the
synchronous part of `getPlayers` (line 183): report `CONNECTING`, clear the
user-disconnect flag, start the 3-second connection timeout, and enter the
`playerInfo` state. -/
def connectFn (st : SqState) : SqState :=
  { st with
    integrationState := IntegState.CONNECTING
    _userDisconnect := false
    _connectionTimeoutActive := true
    _connectionState := connectionStates.playerInfo }

/-- `Squeezebox::enterStandby`. -/
def enterStandbyFn (st : SqState) : SqState :=
  { st with _mediaProgressActive := false, _inStandby := true }

/-- The `getPlayers` response handler (squeezebox.cpp lines 188-229): record
the reported player count and mark every pre-known player as connected
(unknown players are only announced to the host, not added to the registry);
then the socket connection is opened. -/
def playersResponse (st : SqState) (macs : List String) : SqState :=
  { st with
    _playerCnt := macs.length
    _sqPlayerDatabase := macs.foldl
      (fun db mac =>
        if alistContains db mac then
          alistSet db mac {} (fun p => { p with connected := true })
        else db)
      st._sqPlayerDatabase
    _socketOpen := true }

/-- `Squeezebox::socketConnected` (squeezebox.cpp lines 280-297): enter the
`cometdHandshake` state and send the handshake frame. -/
def socketConnectedFn (st : SqState) : SqState :=
  { st with _connectionState := connectionStates.cometdHandshake }

/-- `Squeezebox::onConnectionTimeoutTimer` (squeezebox.cpp lines 135-159):
when fired while already connected, reset the retry counter; after 3 retries,
disconnect and reset the counter; otherwise bump the counter and re-enter
`connect()`. -/
def onConnectionTimeoutTimer (st : SqState) : SqState :=
  let st1 := { st with _connectionTimeoutActive := false }
  if st1._connectionState = connectionStates.connected then
    { st1 with _connectionTries := 0 }
  else if st1._connectionTries = 3 then
    { disconnectFn st1 with _connectionTries := 0 }
  else
    connectFn { st1 with _connectionTries := st1._connectionTries + 1 }

/-- `QString::remove("\"")` applied to the handshake's client id. -/
def stripQuotes (s : String) : String :=
  String.mk (s.toList.filter (fun c => c ≠ '"'))

/-- Handshake-acknowledgment branch of `socketReceived` (lines 404-421):
store the client id, derive the subscription channel, and enter
`cometdConnect` (the connect frame is sent). -/
def handleHandshake (st : SqState) (m : CometdFrame) : SqState :=
  let cid := stripQuotes m.clientId
  { st with
    _clientId := cid
    _subscriptionChannel := "/slim/" ++ cid ++ "/status"
    _connectionState := connectionStates.cometdConnect }

/-- One iteration of the subscribe loop (lines 429-458): for a connected,
not-yet-subscribed player draw the next `qrand()` value and record it in the
subscription mapping against the player's mac. -/
def subscribeFoldStep (supply : Nat → Int) (acc : List (Int × String) × Nat)
    (e : String × SqPlayer) : List (Int × String) × Nat :=
  if e.2.connected = true ∧ e.2.subscribed = false then
    (alistSet acc.1 (supply acc.2) "" (fun _ => e.1), acc.2 + 1)
  else acc

/-- Connect-acknowledgment branch of `socketReceived` (lines 422-458): enter
`cometdSubscribe` and issue one `/slim/subscribe` request per connected,
unsubscribed player, recording each generated id in the mapping. -/
def handleConnectAck (st : SqState) : SqState :=
  let r := st._sqPlayerDatabase.foldl (subscribeFoldStep st._randSupply)
    (st._sqPlayerIdMapping, st._randIdx)
  { st with
    _connectionState := connectionStates.cometdSubscribe
    _sqPlayerIdMapping := r.1
    _randIdx := r.2 }

/-- Number of registry entries with `connected == true` (lines 464-469). -/
def countConn (db : List (String × SqPlayer)) : Nat :=
  (db.filter (fun e => e.2.connected)).length

/-- Number of registry entries with `connected && subscribed` (lines
464-473). -/
def countConnSub (db : List (String × SqPlayer)) : Nat :=
  (db.filter (fun e => e.2.connected && e.2.subscribed)).length

/-- Every connected registry entry is subscribed. -/
def allConnSub (db : List (String × SqPlayer)) : Bool :=
  db.all (fun e => !e.2.connected || e.2.subscribed)

/-- The registry after a subscribe acknowledgment (lines 461-462): the
frame's id is resolved through the mapping — an unknown id resolves to the
empty mac, for which `operator[]` default-constructs an entry — and that
entry's `subscribed` flag is set. -/
def subAckDb (st : SqState) (m : CometdFrame) : List (String × SqPlayer) :=
  alistSet st._sqPlayerDatabase (alistGetD st._sqPlayerIdMapping m.id "") {}
    (fun p => { p with subscribed := true })

/-- Subscribe-acknowledgment branch of `socketReceived` (lines 459-477):
mark the resolved registry entry subscribed, then compare the connected
count with the connected-and-subscribed count and enter `connected` when
equal. -/
def handleSubscribeAck (st : SqState) (m : CometdFrame) : SqState :=
  if countConn (subAckDb st m) = countConnSub (subAckDb st m) then
    { st with
      _sqPlayerDatabase := subAckDb st m
      _connectionState := connectionStates.connected
      integrationState := IntegState.CONNECTED }
  else { st with _sqPlayerDatabase := subAckDb st m }

/-- Status-push branch of `socketReceived` (lines 478-483): resolve the id to
a player and apply the payload. -/
def handleStatusPush (st : SqState) (m : CometdFrame) : SqState :=
  parsePlayerStatus st (alistGetD st._sqPlayerIdMapping m.id "") m.data

/-- Processing of one CometD message object by `socketReceived` (the else-if
chain of lines 404-483). -/
def processMessage (st : SqState) (m : CometdFrame) : SqState :=
  if st._connectionState = connectionStates.cometdHandshake ∧ m.successful = true ∧
      m.channel = "/meta/handshake" then
    handleHandshake st m
  else if st._connectionState = connectionStates.cometdConnect ∧ m.successful = true ∧
      m.channel = "/meta/connect" then
    handleConnectAck st
  else if st._connectionState = connectionStates.cometdSubscribe ∧ m.successful = true ∧
      m.channel = "/slim/subscribe" then
    handleSubscribeAck st m
  else if m.channel = st._subscriptionChannel then
    handleStatusPush st m
  else st

/-- `socketReceived` over the whole decoded JSON array (the while loop of
line 401). -/
def processMessages (st : SqState) (ms : List CometdFrame) : SqState :=
  ms.foldl processMessage st

/-- The asynchronous completions that drive the state machine during a
connect attempt: a connect request, the player-list response, the socket
opening, and a received frame. -/
inductive SqEvent
  | evConnect
  | evPlayersResponse (players : List String)
  | evSocketConnected
  | evFrame (msgs : List CometdFrame)

/-- Dispatch of one event to its handler. -/
def stepEvent (st : SqState) : SqEvent → SqState
  | SqEvent.evConnect => connectFn st
  | SqEvent.evPlayersResponse ps => playersResponse st ps
  | SqEvent.evSocketConnected => socketConnectedFn st
  | SqEvent.evFrame msgs => processMessages st msgs

/-- One outgoing JSON-RPC command, as issued through `sqCommand`. -/
structure RpcCall where
  player : String
  command : String
deriving DecidableEq, Repr

/-- The command codes of the host `MediaPlayerDef` enum that the dispatcher
compares against.  The enum lives in the external `yio-interface` headers
(not part of this repository); only distinctness of the codes matters to the
dispatch logic, so representative values are used. -/
def C_PLAY : Int := 0

def C_PAUSE : Int := 1

def C_STOP : Int := 2

def C_NEXT : Int := 3

def C_PREVIOUS : Int := 4

def C_TURNON : Int := 5

def C_TURNOFF : Int := 6

def C_MUTE : Int := 7

def C_VOLUME_UP : Int := 8

def C_VOLUME_DOWN : Int := 9

def C_VOLUME_SET : Int := 10

/-- The commands handled by `Squeezebox::sendCommand`. -/
def handledCommands : List Int :=
  [C_PLAY, C_PAUSE, C_STOP, C_NEXT, C_PREVIOUS, C_TURNON, C_TURNOFF, C_MUTE,
    C_VOLUME_UP, C_VOLUME_DOWN, C_VOLUME_SET]

/-- `Squeezebox::sendCommand` (squeezebox.cpp lines 487-516): reject item
types other than `media_player`, translate a handled command code into the
RPC command string sent via `sqCommand`, and do nothing otherwise.  The
function mutates no integration state; the returned pair carries the
(unchanged) state and the issued RPC call, if any. -/
def sendCommand (st : SqState) (type entityId : String) (command : Int)
    (param : String) : SqState × Option RpcCall :=
  if type ≠ "media_player" then (st, none)
  else if command = C_PLAY then (st, some ⟨entityId, "play"⟩)
  else if command = C_PAUSE then (st, some ⟨entityId, "pause 1"⟩)
  else if command = C_STOP then (st, some ⟨entityId, "stop"⟩)
  else if command = C_NEXT then (st, some ⟨entityId, "playlist jump +1"⟩)
  else if command = C_PREVIOUS then (st, some ⟨entityId, "playlist jump -1"⟩)
  else if command = C_TURNON then (st, some ⟨entityId, "power 1"⟩)
  else if command = C_TURNOFF then (st, some ⟨entityId, "power 0"⟩)
  else if command = C_MUTE then (st, some ⟨entityId, "mixer muting 1"⟩)
  else if command = C_VOLUME_UP then (st, some ⟨entityId, "button volume_up"⟩)
  else if command = C_VOLUME_DOWN then (st, some ⟨entityId, "button volume_down"⟩)
  else if command = C_VOLUME_SET then (st, some ⟨entityId, "mixer volume " ++ param⟩)
  else (st, none)

/-! ### Association-list lemmas -/

theorem alistGetD_alistSet {α β : Type} [BEq α] [LawfulBEq α]
    (m : List (α × β)) (k : α) (d : β) (f : β → β) :
    alistGetD (alistSet m k d f) k d = f (alistGetD m k d) := by
  induction m with
  | nil => simp [alistGetD, alistSet]
  | cons p rest ih =>
    by_cases h : p.1 == k
    · simp [alistGetD, alistSet, h]
    · simp only [alistSet, alistGetD, h, if_neg]
      simp only [Bool.not_eq_true] at h
      simp [alistGetD, h, ih]

theorem alistGetD_map_snd {α β : Type} [BEq α] (m : List (α × β)) (k : α) (d : β)
    (g : β → β) (hd : g d = d) :
    alistGetD (m.map (fun e => (e.1, g e.2))) k d = g (alistGetD m k d) := by
  induction m with
  | nil => simpa [alistGetD] using hd.symm
  | cons p rest ih =>
    by_cases h : p.1 == k
    · simp [alistGetD, h]
    · simp [alistGetD, h, ih]

theorem all_alistSet {α : Type} [BEq α] (P : SqPlayer → Bool)
    (m : List (α × SqPlayer)) (k : α) (f : SqPlayer → SqPlayer)
    (h1 : ∀ p, P (f p) = P p) (h2 : P (f {}) = true) :
    (alistSet m k {} f).all (fun e => P e.2) = m.all (fun e => P e.2) := by
  induction m with
  | nil => simp [alistSet, h2]
  | cons p rest ih =>
    by_cases h : p.1 == k
    · simp [alistSet, h, h1]
    · simp [alistSet, h, ih]

/-! ### Counting lemmas for the fully-connected check -/

theorem countConnSub_le (db : List (String × SqPlayer)) :
    countConnSub db ≤ countConn db := by
  induction db with
  | nil => simp [countConn, countConnSub]
  | cons e rest ih =>
    simp only [countConn, countConnSub, List.filter_cons] at ih ⊢
    cases hc : e.2.connected <;> cases hs : e.2.subscribed <;> simp [hc, hs] <;> omega

theorem countConn_eq_iff (db : List (String × SqPlayer)) :
    countConn db = countConnSub db ↔ allConnSub db = true := by
  induction db with
  | nil => simp [countConn, countConnSub, allConnSub]
  | cons e rest ih =>
    have hle := countConnSub_le rest
    simp only [countConn, countConnSub, List.filter_cons, allConnSub,
      List.all_cons] at ih hle ⊢
    cases hc : e.2.connected <;> cases hs : e.2.subscribed <;>
      simp [hc, hs] at ih ⊢ <;>
      first
      | omega
      | exact ih

/-! ### Effect of `parsePlayerStatus` on the registry and the entity -/

theorem parse_db_getD (st : SqState) (mac : String) (d : StatusPayload) :
    alistGetD (parsePlayerStatus st mac d)._sqPlayerDatabase mac {} =
      computePlayer (alistGetD st._sqPlayerDatabase mac {}) d := by
  simp [parsePlayerStatus, alistGetD_alistSet]

theorem parse_entity_getD (st : SqState) (mac : String) (d : StatusPayload) :
    alistGetD (parsePlayerStatus st mac d).entities mac {} =
      computeEntity st._httpurl (alistGetD st.entities mac {}) d := by
  simp [parsePlayerStatus, alistGetD_alistSet]

/-! ### Progress-tick lemmas -/

theorem tick_db_getD (st : SqState) (mac : String) :
    alistGetD (onMediaProgressTimer st)._sqPlayerDatabase mac {} =
      tickPlayer (alistGetD st._sqPlayerDatabase mac {}) := by
  have : tickPlayer {} = ({} : SqPlayer) := by simp [tickPlayer]
  simpa [onMediaProgressTimer] using
    alistGetD_map_snd st._sqPlayerDatabase mac {} tickPlayer this

theorem tickN_db_getD (st : SqState) (mac : String) (N : ℕ)
    (h : (alistGetD st._sqPlayerDatabase mac {}).isPlaying = true) :
    alistGetD (onMediaProgressTimer^[N] st)._sqPlayerDatabase mac {} =
      { alistGetD st._sqPlayerDatabase mac {} with
          position := (alistGetD st._sqPlayerDatabase mac {}).position + N * (1 / 2 : ℚ) } := by
  induction N with
  | zero => simp
  | succ n ih =>
    rw [Function.iterate_succ_apply', tick_db_getD, ih]
    simp [tickPlayer, h]
    ring

/-- Claim C4: for a player marked playing with authoritative position `p`,
after `N` ticks of the progress timer with no intervening status push the
local position is exactly `p + 0.5 * N`, and applying a fresh authoritative
payload afterwards sets the position to exactly the payload's `time` value
regardless of the extrapolated value. -/
theorem position_extrapolation (st : SqState) (mac : String) (N : ℕ) (d : StatusPayload)
    (h : (alistGetD st._sqPlayerDatabase mac {}).isPlaying = true) :
    (alistGetD (onMediaProgressTimer^[N] st)._sqPlayerDatabase mac {}).position =
      (alistGetD st._sqPlayerDatabase mac {}).position + N * (1 / 2 : ℚ) ∧
    (alistGetD (parsePlayerStatus (onMediaProgressTimer^[N] st) mac d)._sqPlayerDatabase
        mac {}).position = d.time := by
  constructor
  · rw [tickN_db_getD st mac N h]
  · rw [parse_db_getD]
    simp [computePlayer]

/-- Witness for C4: a concrete playing player at position 10 reaches
position 12 after 4 ticks, and a payload with `time = 99` resets it to 99. -/
theorem position_extrapolation_witness :
    (alistGetD (onMediaProgressTimer^[4]
        { _sqPlayerDatabase := [("A", { connected := true, isPlaying := true, position := 10 })] :
          SqState })._sqPlayerDatabase "A" {}).position = 10 + (4 : ℕ) * (1 / 2 : ℚ) ∧
    (alistGetD (parsePlayerStatus (onMediaProgressTimer^[4]
        { _sqPlayerDatabase := [("A", { connected := true, isPlaying := true, position := 10 })] :
          SqState }) "A" { time := 99 })._sqPlayerDatabase "A" {}).position = (99 : ℚ) :=
  position_extrapolation
    { _sqPlayerDatabase := [("A", { connected := true, isPlaying := true, position := 10 })] }
    "A" 4 { time := 99 } (by decide)

/-- Claim C5: a status payload with negative `mixer_volume` sets the muted
attribute and leaves the volume attribute unchanged; a non-negative
`mixer_volume = v` clears muted and sets the volume to `v`. -/
theorem mixer_volume_convention (st : SqState) (mac : String) (d : StatusPayload) :
    (d.mixer_volume < 0 →
      (alistGetD (parsePlayerStatus st mac d).entities mac {}).muted = true ∧
      (alistGetD (parsePlayerStatus st mac d).entities mac {}).volume =
        (alistGetD st.entities mac {}).volume) ∧
    (0 ≤ d.mixer_volume →
      (alistGetD (parsePlayerStatus st mac d).entities mac {}).muted = false ∧
      (alistGetD (parsePlayerStatus st mac d).entities mac {}).volume = d.mixer_volume) := by
  rw [parse_entity_getD]
  constructor
  · intro hneg
    simp [computeEntity, hneg]
  · intro hpos
    have : ¬ d.mixer_volume < 0 := not_lt.mpr hpos
    simp [computeEntity, this]

/-- Witness for C5: `mixer_volume = -1` yields muted with the prior volume
kept; `mixer_volume = 37` yields unmuted with volume 37. -/
theorem mixer_volume_convention_witness :
    ((alistGetD (parsePlayerStatus { entities := [("A", { volume := 25 })] } "A"
        { mixer_volume := -1 }).entities "A" {}).muted = true ∧
      (alistGetD (parsePlayerStatus { entities := [("A", { volume := 25 })] } "A"
        { mixer_volume := -1 }).entities "A" {}).volume =
        (alistGetD ({ entities := [("A", { volume := 25 })] : SqState }).entities "A" {}).volume) ∧
    ((alistGetD (parsePlayerStatus { entities := [("A", { volume := 25 })] } "A"
        { mixer_volume := 37 }).entities "A" {}).muted = false ∧
      (alistGetD (parsePlayerStatus { entities := [("A", { volume := 25 })] } "A"
        { mixer_volume := 37 }).entities "A" {}).volume = 37) :=
  ⟨(mixer_volume_convention { entities := [("A", { volume := 25 })] } "A"
      { mixer_volume := -1 }).1 (by decide),
    (mixer_volume_convention { entities := [("A", { volume := 25 })] } "A"
      { mixer_volume := 37 }).2 (by decide)⟩

/-! ### Idempotence of status application -/

theorem computeEntity_idem (hu : String) (e : Entity) (d : StatusPayload) :
    computeEntity hu (computeEntity hu e d) d = computeEntity hu e d := by
  unfold computeEntity
  by_cases h : d.mixer_volume < 0 <;> simp [h]

theorem computePlayer_idem (p : SqPlayer) (d : StatusPayload) :
    computePlayer (computePlayer p d) d = computePlayer p d := by
  unfold computePlayer
  by_cases h1 : d.power = true ∧ d.mode = "play" <;>
    by_cases h2 : d.power = true ∧ (d.mode = "pause" ∨ d.mode = "stop") <;>
    simp [h1, h2]

/-- Claim C6: applying the same status payload twice in succession yields the
same entity state and the same registry entry as applying it once. -/
theorem parsePlayerStatus_idem (st : SqState) (mac : String) (d : StatusPayload) :
    alistGetD (parsePlayerStatus (parsePlayerStatus st mac d) mac d).entities mac {} =
      alistGetD (parsePlayerStatus st mac d).entities mac {} ∧
    alistGetD (parsePlayerStatus (parsePlayerStatus st mac d) mac d)._sqPlayerDatabase
        mac {} =
      alistGetD (parsePlayerStatus st mac d)._sqPlayerDatabase mac {} := by
  constructor
  · rw [parse_entity_getD, parse_entity_getD]
    simp [parsePlayerStatus, computeEntity_idem]
  · rw [parse_db_getD, parse_db_getD, computePlayer_idem]

/-- Claim C10: a payload with power on and an unrecognised mode leaves
`isPlaying` unchanged, sets the entity state to exactly `ON`, and still
updates track metadata, volume/mute, duration, and position from the
payload. -/
theorem unknown_mode_effect (st : SqState) (mac : String) (d : StatusPayload)
    (hp : d.power = true) (h1 : d.mode ≠ "play") (h2 : d.mode ≠ "pause")
    (h3 : d.mode ≠ "stop") :
    (alistGetD (parsePlayerStatus st mac d)._sqPlayerDatabase mac {}).isPlaying =
      (alistGetD st._sqPlayerDatabase mac {}).isPlaying ∧
    (alistGetD (parsePlayerStatus st mac d).entities mac {}).state = MediaState.ON ∧
    (alistGetD (parsePlayerStatus st mac d).entities mac {}).mediaArtist =
      (d.playlist_loop.getD d.playlist_curr_index {}).artist ∧
    (alistGetD (parsePlayerStatus st mac d).entities mac {}).mediaTitle =
      (d.playlist_loop.getD d.playlist_curr_index {}).title ∧
    (alistGetD (parsePlayerStatus st mac d).entities mac {}).mediaDuration = d.duration ∧
    (alistGetD (parsePlayerStatus st mac d)._sqPlayerDatabase mac {}).position = d.time ∧
    (d.mixer_volume < 0 →
      (alistGetD (parsePlayerStatus st mac d).entities mac {}).muted = true) ∧
    (0 ≤ d.mixer_volume →
      (alistGetD (parsePlayerStatus st mac d).entities mac {}).volume = d.mixer_volume) := by
  rw [parse_db_getD, parse_entity_getD]
  refine ⟨?_, ?_, ?_, ?_, ?_, ?_, ?_, ?_⟩
  · simp [computePlayer, hp, h1, h2, h3]
  · simp [computeEntity, hp, h1, h2, h3]
  · simp [computeEntity]
  · simp [computeEntity]
  · simp [computeEntity]
  · simp [computePlayer]
  · intro hneg; simp [computeEntity, hneg]
  · intro hpos
    have : ¬ d.mixer_volume < 0 := not_lt.mpr hpos
    simp [computeEntity, this]

/-- Witness for C10: power on with mode `"load"` and a player currently
playing: `isPlaying` stays true, the entity state is `ON`, and the other
attributes follow the payload. -/
theorem unknown_mode_effect_witness :
    (alistGetD (parsePlayerStatus
        { _sqPlayerDatabase := [("A", { connected := true, isPlaying := true })] } "A"
        { power := true, mode := "load", duration := 7, time := 3,
          mixer_volume := 5 })._sqPlayerDatabase "A" {}).isPlaying =
      (alistGetD ({ _sqPlayerDatabase := [("A", { connected := true, isPlaying := true })] :
          SqState })._sqPlayerDatabase "A" {}).isPlaying ∧
    (alistGetD (parsePlayerStatus
        { _sqPlayerDatabase := [("A", { connected := true, isPlaying := true })] } "A"
        { power := true, mode := "load", duration := 7, time := 3,
          mixer_volume := 5 }).entities "A" {}).state = MediaState.ON ∧
    (alistGetD (parsePlayerStatus
        { _sqPlayerDatabase := [("A", { connected := true, isPlaying := true })] } "A"
        { power := true, mode := "load", duration := 7, time := 3,
          mixer_volume := 5 }).entities "A" {}).mediaArtist =
      (({ power := true, mode := "load", duration := 7, time := 3, mixer_volume := 5 } :
          StatusPayload).playlist_loop.getD 0 {}).artist := by
  have h := unknown_mode_effect
    { _sqPlayerDatabase := [("A", { connected := true, isPlaying := true })] } "A"
    { power := true, mode := "load", duration := 7, time := 3, mixer_volume := 5 }
    (by decide) (by decide) (by decide) (by decide)
  exact ⟨h.1, h.2.1, h.2.2.1⟩

/-! ### Subscription state machine: reaching `connected` -/

theorem processMessage_subAck (st : SqState) (m : CometdFrame)
    (h0 : st._connectionState = connectionStates.cometdSubscribe)
    (hs : m.successful = true) (hc : m.channel = "/slim/subscribe") :
    processMessage st m = handleSubscribeAck st m := by
  simp [processMessage, h0, hs, hc]

theorem subAck_spec (st : SqState) (m : CometdFrame)
    (h0 : st._connectionState = connectionStates.cometdSubscribe)
    (hs : m.successful = true) (hc : m.channel = "/slim/subscribe") :
    (processMessage st m)._sqPlayerDatabase = subAckDb st m ∧
    ((processMessage st m)._connectionState = connectionStates.connected ↔
      allConnSub (subAckDb st m) = true) ∧
    ((processMessage st m)._connectionState = connectionStates.connected ∨
      (processMessage st m)._connectionState = connectionStates.cometdSubscribe) := by
  rw [processMessage_subAck st m h0 hs hc]
  unfold handleSubscribeAck
  split
  case isTrue h =>
    exact ⟨rfl, by simp [(countConn_eq_iff _).mp h], Or.inl rfl⟩
  case isFalse h =>
    refine ⟨rfl, ?_, Or.inr h0⟩
    constructor
    · intro hcontra
      rw [h0] at hcontra
      exact absurd hcontra (by decide)
    · intro hall
      exact absurd ((countConn_eq_iff _).mpr hall) h

theorem allConnSub_parse (st : SqState) (mac : String) (d : StatusPayload) :
    allConnSub (parsePlayerStatus st mac d)._sqPlayerDatabase =
      allConnSub st._sqPlayerDatabase := by
  unfold parsePlayerStatus allConnSub
  exact all_alistSet (fun p => !p.connected || p.subscribed) st._sqPlayerDatabase mac
    (fun p => computePlayer p d) (fun p => rfl) rfl

theorem connStay (st : SqState) (f : CometdFrame)
    (h : st._connectionState = connectionStates.connected) :
    (processMessage st f)._connectionState = connectionStates.connected ∧
    (allConnSub st._sqPlayerDatabase = true →
      allConnSub (processMessage st f)._sqPlayerDatabase = true) := by
  by_cases hch : f.channel = st._subscriptionChannel
  · have hred : processMessage st f = handleStatusPush st f := by
      simp [processMessage, h, hch]
    rw [hred]
    unfold handleStatusPush
    refine ⟨h, fun hall => ?_⟩
    rw [allConnSub_parse]
    exact hall
  · have hred : processMessage st f = st := by
      simp [processMessage, h, hch]
    rw [hred]
    exact ⟨h, fun hall => hall⟩

theorem connStayFold (st : SqState) (ms : List CometdFrame)
    (h : st._connectionState = connectionStates.connected)
    (hall : allConnSub st._sqPlayerDatabase = true) :
    (processMessages st ms)._connectionState = connectionStates.connected ∧
    allConnSub (processMessages st ms)._sqPlayerDatabase = true := by
  induction ms generalizing st with
  | nil => exact ⟨h, hall⟩
  | cons f rest ih =>
    have hstep := connStay st f h
    exact ih (processMessage st f) hstep.1 (hstep.2 hall)

theorem c1Aux (acks : List CometdFrame) :
    ∀ st : SqState, st._connectionState = connectionStates.cometdSubscribe →
    (∀ f ∈ acks, f.successful = true ∧ f.channel = "/slim/subscribe") →
    (acks = [] → allConnSub st._sqPlayerDatabase = false) →
    ((processMessages st acks)._connectionState = connectionStates.connected ↔
      allConnSub (processMessages st acks)._sqPlayerDatabase = true) := by
  induction acks with
  | nil =>
    intro st h0 _ hnil
    simp only [processMessages, List.foldl_nil]
    rw [h0, hnil rfl]
    simp
  | cons f rest ih =>
    intro st h0 hacks hnil
    obtain ⟨hs, hc⟩ := hacks f (List.mem_cons_self f rest)
    have hspec := subAck_spec st f h0 hs hc
    by_cases hall : allConnSub (subAckDb st f) = true
    · have hconn : (processMessage st f)._connectionState = connectionStates.connected :=
        hspec.2.1.mpr hall
      have hdb : allConnSub (processMessage st f)._sqPlayerDatabase = true := by
        rw [hspec.1]; exact hall
      have hfold := connStayFold (processMessage st f) rest hconn hdb
      exact ⟨fun _ => hfold.2, fun _ => hfold.1⟩
    · have hstate : (processMessage st f)._connectionState =
          connectionStates.cometdSubscribe := by
        rcases hspec.2.2 with h | h
        · exact absurd (hspec.2.1.mp h) hall
        · exact h
      have hdbf : allConnSub (processMessage st f)._sqPlayerDatabase = false := by
        rw [hspec.1]
        revert hall
        cases allConnSub (subAckDb st f) <;> simp
      exact ih (processMessage st f) hstate
        (fun g hg => hacks g (List.mem_cons_of_mem f hg)) (fun _ => hdbf)

/-- The invariant maintained while subscribe acknowledgments are processed:
either still subscribing, or connected with every connected player
subscribed. -/
def Good (st : SqState) : Prop :=
  st._connectionState = connectionStates.cometdSubscribe ∨
  (st._connectionState = connectionStates.connected ∧
    allConnSub st._sqPlayerDatabase = true)

theorem goodStep (st : SqState) (f : CometdFrame) (hg : Good st)
    (hs : f.successful = true) (hc : f.channel = "/slim/subscribe") :
    Good (processMessage st f) := by
  rcases hg with h0 | ⟨h0, hall⟩
  · have hspec := subAck_spec st f h0 hs hc
    rcases hspec.2.2 with h | h
    · exact Or.inr ⟨h, hspec.1 ▸ hspec.2.1.mp h⟩
    · exact Or.inl h
  · have hstep := connStay st f h0
    exact Or.inr ⟨hstep.1, hstep.2 hall⟩

theorem goodFold (ms : List CometdFrame) : ∀ st : SqState, Good st →
    (∀ f ∈ ms, f.successful = true ∧ f.channel = "/slim/subscribe") →
    Good (processMessages st ms) := by
  induction ms with
  | nil => intro st hg _; exact hg
  | cons f rest ih =>
    intro st hg hacks
    obtain ⟨hs, hc⟩ := hacks f (List.mem_cons_self f rest)
    exact ih (processMessage st f) (goodStep st f hg hs hc)
      (fun g hg' => hacks g (List.mem_cons_of_mem f hg'))

/-- Claim C1: for a session in the `cometdSubscribe` state with pending
subscriptions, processing any sequence of subscription acknowledgments (in
any order) ends in `connected` exactly when every connected registry entry
is subscribed, and at every prefix of the sequence the state is `connected`
only if every connected entry is already subscribed — the transition never
happens earlier. -/
theorem subscribeAcks_connected_iff (st : SqState) (acks : List CometdFrame) (n : ℕ)
    (h0 : st._connectionState = connectionStates.cometdSubscribe)
    (hacks : ∀ f ∈ acks, f.successful = true ∧ f.channel = "/slim/subscribe")
    (hne : acks ≠ [] ∨ allConnSub st._sqPlayerDatabase = false) :
    ((processMessages st acks)._connectionState = connectionStates.connected ↔
      allConnSub (processMessages st acks)._sqPlayerDatabase = true) ∧
    ((processMessages st (acks.take n))._connectionState = connectionStates.connected →
      allConnSub (processMessages st (acks.take n))._sqPlayerDatabase = true) := by
  constructor
  · apply c1Aux acks st h0 hacks
    intro hnil
    rcases hne with h | h
    · exact absurd hnil h
    · exact h
  · intro hcn
    have hg := goodFold (acks.take n) st (Or.inl h0)
      (fun f hf => hacks f (List.mem_of_mem_take hf))
    rcases hg with h | ⟨_, hall⟩
    · rw [hcn] at h
      exact absurd h (by decide)
    · exact hall

/-- A subscribing session with one connected player and one in-flight
subscription id. -/
def c1State : SqState :=
  { _connectionState := connectionStates.cometdSubscribe
    _sqPlayerDatabase := [("A", { connected := true })]
    _sqPlayerIdMapping := [(7, "A")]
    _subscriptionChannel := "/slim/c/status" }

/-- A successful subscribe acknowledgment for subscription id 7. -/
def c1Ack : CometdFrame :=
  { successful := true, channel := "/slim/subscribe", id := 7 }

/-- Witness for C1: after the single acknowledgment the session is connected
exactly because the only connected player is subscribed, and the prefix
condition holds at the concrete input. -/
theorem subscribeAcks_connected_iff_witness :
    ((processMessages c1State [c1Ack])._connectionState = connectionStates.connected ↔
      allConnSub (processMessages c1State [c1Ack])._sqPlayerDatabase = true) ∧
    allConnSub (processMessages c1State ([c1Ack].take 1))._sqPlayerDatabase = true :=
  ⟨(subscribeAcks_connected_iff c1State [c1Ack] 1 rfl (by decide)
      (Or.inl (by decide))).1,
    (subscribeAcks_connected_iff c1State [c1Ack] 1 rfl (by decide)
      (Or.inl (by decide))).2 (by decide)⟩

/-! ### Connection-state progression -/

/-- Position of each connection state along the documented chain
`idle → playerInfo → cometdHandshake → cometdConnect → cometdSubscribe →
connected`. -/
def chainIdx : connectionStates → Nat
  | connectionStates.idle => 0
  | connectionStates.playerInfo => 1
  | connectionStates.cometdHandshake => 2
  | connectionStates.cometdConnect => 3
  | connectionStates.cometdSubscribe => 4
  | connectionStates.connected => 5
  | connectionStates.error => 6

/-- A complete well-formed connect attempt for one pre-known player: the
connect request, the player-list response, the socket opening, the handshake
acknowledgment, the connect acknowledgment, and the subscribe
acknowledgment for the generated id. -/
def happyStart : SqState :=
  { _sqPlayerDatabase := [("A", {})], _randSupply := fun _ => 42 }

/-- The event sequence of the well-formed connect attempt. -/
def happyEvents : List SqEvent :=
  [SqEvent.evConnect,
    SqEvent.evPlayersResponse ["A"],
    SqEvent.evSocketConnected,
    SqEvent.evFrame [{ successful := true, channel := "/meta/handshake", clientId := "abc" }],
    SqEvent.evFrame [{ successful := true, channel := "/meta/connect" }],
    SqEvent.evFrame [{ successful := true, channel := "/slim/subscribe", id := 42 }]]

/-- Claim C2: processing any single CometD message advances the connection
state along the documented chain by at most one step (so no state is ever
skipped), and the well-formed connect attempt `happyEvents` visits
`playerInfo`, `cometdHandshake`, `cometdConnect`, `cometdSubscribe`,
`connected` in exactly that order (the repeated entry corresponds to the
player-list response, which does not change the state). -/
theorem connect_state_progression :
    (∀ (st : SqState) (m : CometdFrame),
      chainIdx (processMessage st m)._connectionState = chainIdx st._connectionState ∨
      chainIdx (processMessage st m)._connectionState = chainIdx st._connectionState + 1) ∧
    (happyEvents.scanl stepEvent happyStart).map SqState._connectionState =
      [connectionStates.idle, connectionStates.playerInfo, connectionStates.playerInfo,
        connectionStates.cometdHandshake, connectionStates.cometdConnect,
        connectionStates.cometdSubscribe, connectionStates.connected] := by
  constructor
  · intro st m
    unfold processMessage
    split
    case isTrue h1 =>
      rw [h1.1]
      right
      rfl
    case isFalse h1 =>
      split
      case isTrue h2 =>
        rw [h2.1]
        right
        rfl
      case isFalse h2 =>
        split
        case isTrue h3 =>
          unfold handleSubscribeAck
          split
          · rw [h3.1]
            right
            rfl
          · left
            rfl
        case isFalse h3 =>
          split
          · left
            rfl
          · left
            rfl
  · decide

/-! ### Claim C3: the `subscribed ⇒ connected` invariant -/

/-- Every registry entry with `subscribed == true` also has
`connected == true`. -/
def invDb (db : List (String × SqPlayer)) : Bool :=
  db.all (fun e => !e.2.subscribed || e.2.connected)

/-- A subscribing session whose registry satisfies the invariant and whose
subscription mapping does not contain id 5. -/
def c3State : SqState :=
  { _connectionState := connectionStates.cometdSubscribe
    _sqPlayerDatabase := [("A", { connected := true })]
    _sqPlayerIdMapping := [(7, "A")]
    _subscriptionChannel := "/slim/c/status" }

/-- A successful subscribe acknowledgment carrying an id that is not in the
subscription mapping. -/
def c3StaleAck : CometdFrame :=
  { successful := true, channel := "/slim/subscribe", id := 5 }

/-- Counterexample to C3 as stated: from a registry satisfying
`subscribed ⇒ connected`, handling a subscribe acknowledgment whose id is
not in the subscription mapping resolves to the empty mac, default-creates a
registry entry there, and marks it subscribed while it is not connected —
the invariant is broken after the operation. -/
theorem subscribedImpliesConnected_cex :
    invDb c3State._sqPlayerDatabase = true ∧
    invDb (processMessage c3State c3StaleAck)._sqPlayerDatabase = false := by
  decide

theorem invDb_parse (st : SqState) (mac : String) (d : StatusPayload) :
    invDb (parsePlayerStatus st mac d)._sqPlayerDatabase =
      invDb st._sqPlayerDatabase := by
  unfold parsePlayerStatus invDb
  exact all_alistSet (fun p => !p.subscribed || p.connected) st._sqPlayerDatabase mac
    (fun p => computePlayer p d) (fun p => rfl) rfl

theorem invDb_set_subscribed (db : List (String × SqPlayer)) (k : String)
    (hinv : invDb db = true) (hk : (alistGetD db k {}).connected = true) :
    invDb (alistSet db k {} (fun p => { p with subscribed := true })) = true := by
  induction db with
  | nil => simp [alistGetD] at hk
  | cons e rest ih =>
    simp only [invDb, List.all_cons, Bool.and_eq_true] at hinv
    by_cases h : e.1 == k
    · simp only [alistGetD, h, if_pos] at hk
      simp [alistSet, h, invDb, hk, hinv.2]
    · simp only [alistGetD, h, Bool.false_eq_true, if_false] at hk
      simp only [alistSet, h, Bool.false_eq_true, if_false]
      simp only [invDb, List.all_cons, Bool.and_eq_true]
      exact ⟨hinv.1, ih hinv.2 hk⟩

/-- Claim C3 amended: the invariant `subscribed ⇒ connected` is preserved by
status application (and hence by push-frame routing), by the progress tick,
and by disconnect; it is preserved by frame processing provided that, for a
subscribe acknowledgment, the frame's id resolves through the Subscription
Mapping to a registry entry whose `connected` flag is true.  (An
acknowledgment with an unmapped or stale id violates it, as the
counterexample shows.) -/
theorem subscribedImpliesConnected_preserved :
    (∀ (st : SqState) (mac : String) (d : StatusPayload),
      invDb st._sqPlayerDatabase = true →
      invDb (parsePlayerStatus st mac d)._sqPlayerDatabase = true) ∧
    (∀ st : SqState, invDb st._sqPlayerDatabase = true →
      invDb (disconnectFn st)._sqPlayerDatabase = true) ∧
    (∀ st : SqState, invDb st._sqPlayerDatabase = true →
      invDb (onMediaProgressTimer st)._sqPlayerDatabase = true) ∧
    (∀ (st : SqState) (f : CometdFrame), invDb st._sqPlayerDatabase = true →
      (alistGetD st._sqPlayerDatabase (alistGetD st._sqPlayerIdMapping f.id "")
        {}).connected = true →
      invDb (processMessage st f)._sqPlayerDatabase = true) := by
  refine ⟨?_, ?_, ?_, ?_⟩
  · intro st mac d h
    rw [invDb_parse]
    exact h
  · intro st h
    exact h
  · intro st h
    unfold onMediaProgressTimer invDb
    unfold invDb at h
    rw [List.all_map]
    refine List.all_eq_true.mpr ?_
    intro e he
    have := List.all_eq_true.mp h e he
    simp only [Function.comp_apply, tickPlayer]
    split <;> simpa using this
  · intro st f h hres
    unfold processMessage
    split
    case isTrue h1 => exact h
    case isFalse h1 =>
      split
      case isTrue h2 => exact h
      case isFalse h2 =>
        split
        case isTrue h3 =>
          unfold handleSubscribeAck
          split
          · exact invDb_set_subscribed _ _ h hres
          · exact invDb_set_subscribed _ _ h hres
        case isFalse h3 =>
          split
          · rw [show (handleStatusPush st f)._sqPlayerDatabase =
                (parsePlayerStatus st (alistGetD st._sqPlayerIdMapping f.id "")
                  f.data)._sqPlayerDatabase from rfl, invDb_parse]
            exact h
          · exact h

/-- Witness for the amended C3: a concrete status application and a concrete
subscribe acknowledgment with a mapped id both preserve the invariant. -/
theorem subscribedImpliesConnected_preserved_witness :
    invDb (parsePlayerStatus c3State "A" { power := true, mode := "play" })._sqPlayerDatabase
      = true ∧
    invDb (processMessage c3State
      { successful := true, channel := "/slim/subscribe", id := 7 })._sqPlayerDatabase
      = true :=
  ⟨subscribedImpliesConnected_preserved.1 c3State "A" { power := true, mode := "play" }
      (by decide),
    subscribedImpliesConnected_preserved.2.2.2 c3State
      { successful := true, channel := "/slim/subscribe", id := 7 } (by decide) (by decide)⟩

/-! ### Claim C7: disconnect during an in-flight subscribe -/

/-- A session with one connected player and an in-flight subscribe request
(id 7 recorded in the mapping, acknowledgment not yet received). -/
def c7State : SqState :=
  { _connectionState := connectionStates.cometdSubscribe
    integrationState := IntegState.CONNECTING
    _clientId := "abc"
    _subscriptionChannel := "/slim/abc/status"
    _sqPlayerDatabase := [("A", { connected := true })]
    _sqPlayerIdMapping := [(7, "A")]
    _socketOpen := true }

/-- The acknowledgment for the in-flight subscribe, arriving after the
disconnect. -/
def c7LateAck : CometdFrame :=
  { successful := true, channel := "/slim/subscribe", id := 7 }

/-- Counterexample to C7 as stated: `disconnect` leaves the Subscription
Mapping, the clientId, and the player's `connected` flag in place (it clears
none of them), and a subscription acknowledgment processed after the
disconnect is not ignored — it moves the session to `connected` and reports
the integration as `CONNECTED`. -/
theorem disconnect_clears_cex :
    (disconnectFn c7State)._sqPlayerIdMapping = [(7, "A")] ∧
    (disconnectFn c7State)._clientId = "abc" ∧
    (alistGetD (disconnectFn c7State)._sqPlayerDatabase "A" {}).connected = true ∧
    (disconnectFn c7State)._connectionState = connectionStates.cometdSubscribe ∧
    (processMessage (disconnectFn c7State) c7LateAck)._connectionState =
      connectionStates.connected ∧
    (processMessage (disconnectFn c7State) c7LateAck).integrationState =
      IntegState.CONNECTED := by
  decide

/-- Claim C7 amended: a disconnect request sets the user-disconnect flag,
closes the socket, stops the progress timer, and reports `DISCONNECTED`, but
leaves the Subscription Mapping, the clientId, the registry (including the
per-player `connected`/`subscribed` flags), and the internal connection
state unchanged; consequently a subscription acknowledgment processed after
the disconnect is handled like any other (the concrete late acknowledgment
above moves the cleared-in-name-only session to `connected`). -/
theorem disconnect_effects (st : SqState) :
    (disconnectFn st)._sqPlayerIdMapping = st._sqPlayerIdMapping ∧
    (disconnectFn st)._clientId = st._clientId ∧
    (disconnectFn st)._sqPlayerDatabase = st._sqPlayerDatabase ∧
    (disconnectFn st)._connectionState = st._connectionState ∧
    (disconnectFn st)._subscriptionChannel = st._subscriptionChannel ∧
    (disconnectFn st)._userDisconnect = true ∧
    (disconnectFn st)._mediaProgressActive = false ∧
    (disconnectFn st)._socketOpen = false ∧
    (disconnectFn st).integrationState = IntegState.DISCONNECTED ∧
    (processMessage (disconnectFn c7State) c7LateAck)._connectionState =
      connectionStates.connected := by
  exact ⟨rfl, rfl, rfl, rfl, rfl, rfl, rfl, rfl, rfl, by decide⟩

/-! ### Claim C8: timeout behaviour of the connect attempt -/

/-- A connect attempt whose TCP socket has opened (state `cometdHandshake`)
but that has received no handshake frame, with no retries used yet. -/
def c8State : SqState :=
  { _connectionState := connectionStates.cometdHandshake
    integrationState := IntegState.CONNECTING
    _connectionTimeoutActive := true
    _connectionTries := 0
    _socketOpen := true }

/-- The same stuck attempt after the retry counter has reached 3. -/
def c8TriesState : SqState :=
  { c8State with _connectionTries := 3 }

/-- Counterexample to C8 as stated: the 3-second connection timeout started
by `connect()` fires during the handshake step with no frame received — the
state does not remain at `cometdHandshake` but is reset to `playerInfo` by
the retry, and once the retry counter reaches 3 the handler disconnects,
i.e. the attempt self-aborts. -/
theorem handshake_timeout_cex :
    c8State._connectionState = connectionStates.cometdHandshake ∧
    (onConnectionTimeoutTimer c8State)._connectionState = connectionStates.playerInfo ∧
    (onConnectionTimeoutTimer c8State)._connectionTries = 1 ∧
    (onConnectionTimeoutTimer c8TriesState).integrationState = IntegState.DISCONNECTED ∧
    (onConnectionTimeoutTimer c8TriesState)._connectionTries = 0 := by
  decide

/-- Claim C8 amended: a 3-second single-shot connection timeout started by
`connect()` covers the whole attempt, including the handshake, connect and
subscribe steps.  When it fires before the state machine has reached
`connected`, the attempt is retried — the state is forced back to
`playerInfo` and the retry counter incremented — and once the counter
reaches 3 the handler disconnects and surfaces the failure, so a stuck
attempt self-aborts rather than waiting for a frame or an explicit
disconnect. -/
theorem connection_timeout_retry (st : SqState)
    (h : st._connectionState ≠ connectionStates.connected) :
    (st._connectionTries = 3 →
      (onConnectionTimeoutTimer st).integrationState = IntegState.DISCONNECTED ∧
      (onConnectionTimeoutTimer st)._connectionTries = 0) ∧
    (st._connectionTries ≠ 3 →
      (onConnectionTimeoutTimer st)._connectionState = connectionStates.playerInfo ∧
      (onConnectionTimeoutTimer st)._connectionTries = st._connectionTries + 1 ∧
      (onConnectionTimeoutTimer st).integrationState = IntegState.CONNECTING) := by
  constructor
  · intro h3
    simp [onConnectionTimeoutTimer, h, h3, disconnectFn]
  · intro h3
    simp [onConnectionTimeoutTimer, h, h3, connectFn]

/-- Witness for the amended C8: the stuck handshake attempt is retried, and
with the counter at 3 it is aborted. -/
theorem connection_timeout_retry_witness :
    ((onConnectionTimeoutTimer c8State)._connectionState = connectionStates.playerInfo ∧
      (onConnectionTimeoutTimer c8State)._connectionTries = 0 + 1 ∧
      (onConnectionTimeoutTimer c8State).integrationState = IntegState.CONNECTING) ∧
    ((onConnectionTimeoutTimer c8TriesState).integrationState = IntegState.DISCONNECTED ∧
      (onConnectionTimeoutTimer c8TriesState)._connectionTries = 0) :=
  ⟨(connection_timeout_retry c8State (by decide)).2 (by decide),
    (connection_timeout_retry c8TriesState (by decide)).1 (by decide)⟩

/-! ### Claim C9: rejection of unsupported commands -/

/-- Claim C9: a `sendCommand` call whose item type is not `media_player`, or
whose command code is outside the handled set, issues no RPC call and
mutates no state. -/
theorem sendCommand_noop (st : SqState) (type entityId : String) (command : Int)
    (param : String)
    (h : type ≠ "media_player" ∨ command ∉ handledCommands) :
    sendCommand st type entityId command param = (st, none) := by
  rcases h with h | h
  · simp [sendCommand, h]
  · simp only [handledCommands, List.mem_cons, List.not_mem_nil, or_false,
      not_or] at h
    obtain ⟨h0, h1, h2, h3, h4, h5, h6, h7, h8, h9, h10⟩ := h
    simp [sendCommand, h0, h1, h2, h3, h4, h5, h6, h7, h8, h9, h10]

/-- Witness for C9: a command for a non-media-player item type and a command
code outside the handled set are both silent no-ops. -/
theorem sendCommand_noop_witness :
    sendCommand {} "light" "A" C_PLAY "" = ({}, none) ∧
    sendCommand {} "media_player" "A" 99 "" = ({}, none) :=
  ⟨sendCommand_noop {} "light" "A" C_PLAY "" (Or.inl (by decide)),
    sendCommand_noop {} "media_player" "A" 99 "" (Or.inr (by decide))⟩

end Sq
